import Mathlib

/-!
Verification of the coaching-backend core (payments, enrollment, assessments)
against its natural-language specification.

The definitions below are a shallow embedding of the JavaScript source:
  - src/unnamed/part_004        (Test mongoose model: hooks, isActive,
                                 getQuestionsForStudent)
  - src/models/TestResult.js    (TestResult model: pre-save percentage hook,
                                 unique (test, student, attemptNumber) index)
  - src/models/User.js          (first half: User model / enrolledCourses;
                                 second half: Payment model with approve and
                                 reject methods)
  - src/routes/tests.js         (GET /:id, PUT /:id, POST /:id/submit)
  - src/routes/payments.js      (POST /create-order, POST /verify,
                                 POST /offline, PUT /:id/approve,
                                 PUT /:id/reject)

Mongo ObjectIds are modelled as Nat, dates as Nat milliseconds.  External
collaborators (the Razorpay signature check, which is an HMAC computation in
src/unnamed/part_007) enter as boolean parameters, exactly as the spec treats
the gateway as a collaborator returning signatureValid.
-/

deriving instance DecidableEq for Except

namespace Coaching

/-! ## Test model (src/unnamed/part_004) -/

/-- An entry of questionSchema.options: subdocument id, text, isCorrect. -/
structure AnswerOption where
  oid : Nat
  text : String
  isCorrect : Bool
deriving Repr, DecidableEq

/-- questionSchema: text, options, explanation, difficulty, marks. -/
structure Question where
  qid : Nat
  question : String
  options : List AnswerOption
  explanation : String
  difficulty : String
  marks : Nat
deriving Repr, DecidableEq

/-- testSchema fields used by the routes under verification. -/
structure Test where
  title : String
  course : Nat
  questions : List Question
  duration : Nat
  totalMarks : Nat
  passingMarks : Nat
  isPublished : Bool
  startDate : Option Nat
  endDate : Option Nat
  maxAttempts : Nat
  showResults : Bool
  showCorrectAnswers : Bool
deriving Repr, DecidableEq

/-- testSchema.pre(save) first hook: when questions is nonempty, recompute
totalMarks as questions.reduce((total, q) => total + q.marks, 0).  An empty
questions array leaves totalMarks untouched, as in the source. -/
def saveTest (t : Test) : Test :=
  if t.questions.length > 0 then
    { t with totalMarks := t.questions.foldl (fun total q => total + q.marks) 0 }
  else t

/-- testSchema.methods.isActive: false when unpublished, when now < startDate
(startDate set), or when now > endDate (endDate set); true otherwise. -/
def Test.isActive (t : Test) (now : Nat) : Bool :=
  if !t.isPublished then false
  else if t.startDate.elim false (fun s => decide (now < s)) then false
  else if t.endDate.elim false (fun e => decide (e < now)) then false
  else true

/-- The option projection produced by getQuestionsForStudent: only _id and
text survive. -/
structure StudentOption where
  oid : Nat
  text : String
deriving Repr, DecidableEq

/-- The question projection produced by getQuestionsForStudent. -/
structure StudentQuestion where
  qid : Nat
  question : String
  options : List StudentOption
  difficulty : String
  marks : Nat
deriving Repr, DecidableEq

/-- testSchema.methods.getQuestionsForStudent: map each question to
(_id, question, options.map (_id, text), difficulty, marks). -/
def Test.getQuestionsForStudent (t : Test) : List StudentQuestion :=
  t.questions.map fun q =>
    { qid := q.qid
      question := q.question
      options := q.options.map fun o => { oid := o.oid, text := o.text }
      difficulty := q.difficulty
      marks := q.marks }

/-! ## Grading (src/routes/tests.js, POST /:id/submit) -/

/-- One element of the submitted answers array. -/
structure Answer where
  questionId : Nat
  selectedOption : Nat
deriving Repr, DecidableEq

/-- One element of answerSchema persisted in a TestResult. -/
structure GradedAnswer where
  questionId : Nat
  selectedOption : Nat
  isCorrect : Bool
  marksObtained : Nat
deriving Repr, DecidableEq

/-- test.questions.id(answer.questionId): first question with that _id. -/
def Test.findQuestion (t : Test) (questionId : Nat) : Option Question :=
  t.questions.find? (fun q => q.qid == questionId)

/-- question.options.id(answer.selectedOption): first option with that _id. -/
def Question.findOption (q : Question) (optionId : Nat) : Option AnswerOption :=
  q.options.find? (fun o => o.oid == optionId)

/-- Failure kinds of POST /:id/submit, tagged with the HTTP status the route
responds with (httpStatus below). -/
inductive SubmitErr
  | testNotFound
  | notAuthorized
  | testNotActive
  | maxAttemptsExceeded
  | invalidQuestion
  | invalidOption
deriving Repr, DecidableEq

/-- The HTTP status code each submit failure is reported with in the route. -/
def SubmitErr.httpStatus : SubmitErr → Nat
  | .testNotFound => 404
  | .notAuthorized => 403
  | .testNotActive => 400
  | .maxAttemptsExceeded => 400
  | .invalidQuestion => 400
  | .invalidOption => 400

/-- The grading loop of POST /:id/submit: walk the answers, resolving each
question and option by id (400 on an unknown id), accumulating marksObtained
and the gradedAnswers array. -/
def gradeLoop (t : Test) :
    List Answer → Nat → List GradedAnswer → Except SubmitErr (Nat × List GradedAnswer)
  | [], marksObtained, acc => .ok (marksObtained, acc.reverse)
  | a :: rest, marksObtained, acc =>
    match t.findQuestion a.questionId with
    | none => .error .invalidQuestion
    | some q =>
      match q.findOption a.selectedOption with
      | none => .error .invalidOption
      | some o =>
        let questionMarks := if o.isCorrect then q.marks else 0
        gradeLoop t rest (marksObtained + questionMarks)
          ({ questionId := a.questionId
             selectedOption := a.selectedOption
             isCorrect := o.isCorrect
             marksObtained := questionMarks } :: acc)

/-! JavaScript Numbers are IEEE-754 binary64 doubles, so the percentage the
route and the testResultSchema.pre(save) hook compute —
Math.round((marksObtained / totalMarks) * 100) — goes through two
correctly-rounded (round-to-nearest, ties-to-even) double operations, the
division and the multiplication by 100, before Math.round.  The following
definitions model that pipeline exactly on the dyadic rationals.  A finite
nonnegative double is a pair (n, g) denoting n * 2 ^ g. -/

/-- Floor of log base 2 by structural recursion on an explicit fuel.  With
fuel 1100 (blog2 below) this is exact for every n < 2 ^ 1100, which covers
every magnitude a finite double can hold (doubles overflow at 2 ^ 1024). -/
def log2F : ℕ → ℕ → ℕ
  | 0, _ => 0
  | fuel + 1, n => if n ≤ 1 then 0 else log2F fuel (n / 2) + 1

def blog2 (n : ℕ) : ℕ := log2F 1100 n

/-- Round the rational a / b to the nearest integer, ties to even: the
rounding IEEE-754 applies to the infinitely precise result of each basic
operation. -/
def rneDiv (a b : ℕ) : ℕ :=
  let q := a / b
  let r := a % b
  if 2 * r < b then q
  else if b < 2 * r then q + 1
  else if q % 2 = 0 then q else q + 1

/-- The binary64 double nearest m / t (round-to-nearest, ties-to-even), for
m, t : ℕ with t > 0: the quotient lies in the binade [2 ^ e, 2 ^ (e+1)), its
ulp exponent is e - 52 clamped at the subnormal grid 2 ^ (-1074), and the
significand is the correctly rounded quotient on that grid.  The exponent is
not capped above: the model agrees with binary64 whenever the quotient is
finite (below 2 ^ 1024), which holds for every value a double can carry. -/
def flDiv (m t : ℕ) : ℕ × ℤ :=
  if m = 0 then (0, 0)
  else
    let La := blog2 m
    let Lb := blog2 t
    let e : ℤ := if t * 2 ^ La ≤ m * 2 ^ Lb then (La : ℤ) - Lb else (La : ℤ) - Lb - 1
    let g : ℤ := max (e - 52) (-1074)
    let n := if g ≤ 0 then rneDiv (m * 2 ^ (-g).toNat) t else rneDiv m (t * 2 ^ g.toNat)
    (n, g)

/-- The binary64 double nearest (n * 2 ^ g) * 100: the exact product is
(n * 100) * 2 ^ g; rebase it on the ulp grid of its own binade (again with
the subnormal clamp) with round-to-nearest, ties-to-even. -/
def flMul100 : ℕ × ℤ → ℕ × ℤ := fun p =>
  if p.1 = 0 then (0, 0)
  else
    let n100 := p.1 * 100
    let e2 : ℤ := p.2 + blog2 n100
    let g2 : ℤ := max (e2 - 52) (-1074)
    let s : ℤ := g2 - p.2
    if s ≤ 0 then (n100 * 2 ^ (-s).toNat, g2)
    else (rneDiv n100 (2 ^ s.toNat), g2)

/-- ECMA-262 Math.round on a nonnegative double (n, g): the integer closest
to the double's exact value, ties toward positive infinity — computed on the
exact value, i.e. floor(n * 2 ^ g + 1/2) evaluated without further rounding
(the spec notes Math.round(x) can differ from Math.floor(x + 0.5)). -/
def jsRound : ℕ × ℤ → ℕ := fun p =>
  if 0 ≤ p.2 then p.1 * 2 ^ p.2.toNat
  else (p.1 + 2 ^ ((-p.2).toNat - 1)) / 2 ^ (-p.2).toNat

/-- testResultSchema.pre(save) hook in binary64:
percentage = Math.round((marksObtained / totalMarks) * 100) when
totalMarks > 0, else 0.  At half-boundary quotients the double pipeline
differs from exact rational rounding: (23 / 40) * 100 evaluates to the
double 57.49999999999999289..., so the hook stores 57 where exact rounding
of 57.5 gives 58. -/
def percentageOf (marksObtained totalMarks : Nat) : ℤ :=
  if 0 < totalMarks then (jsRound (flMul100 (flDiv marksObtained totalMarks)) : ℤ)
  else 0

/-- The TestResult document fields produced by submit (after the pre-save
percentage hook has run on create). -/
structure TestResultDoc where
  answers : List GradedAnswer
  totalMarks : Nat
  marksObtained : Nat
  percentage : ℤ
  isPassed : Bool
  attemptNumber : Nat
deriving Repr, DecidableEq

/-- An entry of User.enrolledCourses (src/models/User.js). -/
inductive EnrollPayStatus
  | pending
  | completed
  | failed
deriving Repr, DecidableEq

inductive PayMethod
  | online
  | offline
deriving Repr, DecidableEq

structure Enrollment where
  course : Nat
  paymentStatus : EnrollPayStatus
  paymentMethod : PayMethod
deriving Repr, DecidableEq

/-- userSchema.methods.hasPurchasedCourse: some enrolledCourses entry for the
course with paymentStatus completed. -/
def hasPurchasedCourse (enrolledCourses : List Enrollment) (courseId : Nat) : Bool :=
  enrolledCourses.any fun e => e.course == courseId && e.paymentStatus == .completed

/-- POST /api/tests/:id/submit with the persistence effects flattened: the
test lookup result, the requesting student's enrolledCourses, the current
TestResult count for (test, student) and the clock are inputs; the persisted
TestResult document (or the error response) is the output.  Guard order is
the route's: 404 missing test, 403 unpublished-or-unpurchased, 400 inactive,
400 attempt limit, then the grading loop, then TestResult.create (the
pre-save hook recomputes percentage, giving 0 when totalMarks = 0). -/
def submit (testDoc : Option Test) (enrolledCourses : List Enrollment)
    (attemptCount : Nat) (now : Nat) (answers : List Answer) :
    Except SubmitErr TestResultDoc :=
  match testDoc with
  | none => .error .testNotFound
  | some t =>
    if !(t.isPublished && hasPurchasedCourse enrolledCourses t.course) then
      .error .notAuthorized
    else if !(t.isActive now) then
      .error .testNotActive
    else if t.maxAttempts ≤ attemptCount then
      .error .maxAttemptsExceeded
    else
      match gradeLoop t answers 0 [] with
      | .error e => .error e
      | .ok (marksObtained, gradedAnswers) =>
        .ok { answers := gradedAnswers
              totalMarks := t.totalMarks
              marksObtained := marksObtained
              percentage := percentageOf marksObtained t.totalMarks
              isPassed := decide (t.passingMarks ≤ marksObtained)
              attemptNumber := attemptCount + 1 }

/-! ## PUT /api/tests/:id (src/routes/tests.js) -/

/-- The request body of PUT /api/tests/:id restricted to the fields the route
copies: allowedFields plus questions.  A field set to none is absent from the
request. -/
structure TestUpdateBody where
  title : Option String
  duration : Option Nat
  passingMarks : Option Nat
  maxAttempts : Option Nat
  showResults : Option Bool
  showCorrectAnswers : Option Bool
  startDate : Option (Option Nat)
  endDate : Option (Option Nat)
  isPublished : Option Bool
  questions : Option (List Question)
deriving Repr, DecidableEq

def emptyUpdateBody : TestUpdateBody :=
  { title := none, duration := none, passingMarks := none, maxAttempts := none
    showResults := none, showCorrectAnswers := none, startDate := none
    endDate := none, isPublished := none, questions := none }

/-- Test.findByIdAndUpdate: writes the supplied fields directly onto the
stored document.  Mongoose findByIdAndUpdate issues an update query; it runs
update validators (runValidators) but does NOT run the pre(save) document
middleware, so the totalMarks recompute hook of saveTest does not fire. -/
def findByIdAndUpdate (t : Test) (u : TestUpdateBody) : Test :=
  { t with
    title := u.title.getD t.title
    duration := u.duration.getD t.duration
    passingMarks := u.passingMarks.getD t.passingMarks
    maxAttempts := u.maxAttempts.getD t.maxAttempts
    showResults := u.showResults.getD t.showResults
    showCorrectAnswers := u.showCorrectAnswers.getD t.showCorrectAnswers
    startDate := u.startDate.getD t.startDate
    endDate := u.endDate.getD t.endDate
    isPublished := u.isPublished.getD t.isPublished
    questions := u.questions.getD t.questions }

inductive UpdateErr
  | questionsLocked
deriving Repr, DecidableEq

/-- PUT /api/tests/:id after the 404 and ownership guards: reject a questions
update once a TestResult exists (400), otherwise copy the allowed fields
(questions only when attemptCount = 0) and apply Test.findByIdAndUpdate. -/
def updateTest (t : Test) (attemptCount : Nat) (u : TestUpdateBody) :
    Except UpdateErr Test :=
  if 0 < attemptCount && u.questions.isSome then .error .questionsLocked
  else
    .ok (findByIdAndUpdate t
      { u with questions := if attemptCount == 0 then u.questions else none })

/-- POST /api/tests: Test.create runs document save, hence the pre(save)
totalMarks hook. -/
def createTest (t : Test) : Test := saveTest t

/-! ## GET /api/tests/:id student branch (src/routes/tests.js) -/

/-- The response body GET /api/tests/:id delivers to a student: the test
document with questions replaced by getQuestionsForStudent, plus the
attemptCount and canAttempt fields the route adds. -/
structure StudentTestView where
  title : String
  course : Nat
  duration : Nat
  totalMarks : Nat
  passingMarks : Nat
  maxAttempts : Nat
  showResults : Bool
  showCorrectAnswers : Bool
  isPublished : Bool
  startDate : Option Nat
  endDate : Option Nat
  questions : List StudentQuestion
  attemptCount : Nat
  canAttempt : Bool
deriving Repr, DecidableEq

def studentTestView (t : Test) (attemptCount now : Nat) : StudentTestView :=
  { title := t.title
    course := t.course
    duration := t.duration
    totalMarks := t.totalMarks
    passingMarks := t.passingMarks
    maxAttempts := t.maxAttempts
    showResults := t.showResults
    showCorrectAnswers := t.showCorrectAnswers
    isPublished := t.isPublished
    startDate := t.startDate
    endDate := t.endDate
    questions := t.getQuestionsForStudent
    attemptCount := attemptCount
    canAttempt := decide (attemptCount < t.maxAttempts) && t.isActive now }

/-- Normalize away exactly the data getQuestionsForStudent hides: every
isCorrect flag and every explanation.  Two tests differ only in correctness
data iff they agree after this erasure. -/
def eraseCorrectness (t : Test) : Test :=
  { t with questions := t.questions.map fun q =>
      { q with
        explanation := ""
        options := q.options.map fun o => { o with isCorrect := false } } }

/-! ## Payment model (second half of src/models/User.js) -/

inductive Role
  | student
  | admin
  | superadmin
deriving Repr, DecidableEq

inductive PayStatus
  | pending
  | completed
  | failed
  | refunded
  | cancelled
deriving Repr, DecidableEq

structure Payment where
  pid : Nat
  student : Nat
  course : Nat
  amount : Nat
  paymentMethod : PayMethod
  status : PayStatus
  razorpayOrderId : Option Nat
  razorpayPaymentId : Option Nat
  approvedBy : Option Nat
  approvedAt : Option Nat
  rejectedBy : Option Nat
  rejectedAt : Option Nat
  rejectionReason : Option String
deriving Repr, DecidableEq

/-- paymentSchema.methods.approve: status completed, approvedBy, approvedAt. -/
def Payment.approve (p : Payment) (adminId now : Nat) : Payment :=
  { p with status := .completed, approvedBy := some adminId, approvedAt := some now }

/-- paymentSchema.methods.reject: status failed, rejectedBy, rejectedAt,
rejectionReason. -/
def Payment.reject (p : Payment) (adminId : Nat) (reason : String) (now : Nat) :
    Payment :=
  { p with status := .failed, rejectedBy := some adminId, rejectedAt := some now
           rejectionReason := some reason }

structure UserDoc where
  uid : Nat
  role : Role
  enrolledCourses : List Enrollment
deriving Repr, DecidableEq

structure CourseDoc where
  cid : Nat
  instructor : Nat
  price : Nat
  isPublished : Bool
  enrollmentCount : Nat
deriving Repr, DecidableEq

/-- The persistent state the payment routes read and write. -/
structure World where
  users : List UserDoc
  courses : List CourseDoc
  payments : List Payment
deriving Repr, DecidableEq

def World.findUser (w : World) (userId : Nat) : Option UserDoc :=
  w.users.find? fun u => u.uid == userId

def World.findCourse (w : World) (courseId : Nat) : Option CourseDoc :=
  w.courses.find? fun c => c.cid == courseId

def World.findPayment (w : World) (paymentId : Nat) : Option Payment :=
  w.payments.find? fun p => p.pid == paymentId

/-- payment.save(): persist the mutated payment document (keyed by _id). -/
def World.updatePayment (w : World) (p : Payment) : World :=
  { w with payments := w.payments.map fun q => if q.pid == p.pid then p else q }

/-- user.save() after mutating user.enrolledCourses. -/
def World.setUserEnrollments (w : World) (userId : Nat)
    (enrolledCourses : List Enrollment) : World :=
  { w with users := w.users.map fun u =>
      if u.uid == userId then { u with enrolledCourses := enrolledCourses } else u }

/-- Course.findByIdAndUpdate(courseId, dollarinc enrollmentCount 1). -/
def World.incEnrollmentCount (w : World) (courseId : Nat) : World :=
  { w with courses := w.courses.map fun c =>
      if c.cid == courseId then { c with enrollmentCount := c.enrollmentCount + 1 }
      else c }

def World.enrollmentCountOf (w : World) (courseId : Nat) : Nat :=
  ((w.findCourse courseId).map fun c => c.enrollmentCount).getD 0

/-- The JS mutation pattern of PUT /:id/approve for an existing enrollment:
user.enrolledCourses.find(...).paymentStatus = completed mutates the first
entry for the course. -/
def setFirstEnrollmentCompleted (courseId : Nat) :
    List Enrollment → List Enrollment
  | [] => []
  | e :: rest =>
    if e.course == courseId then { e with paymentStatus := .completed } :: rest
    else e :: setFirstEnrollmentCompleted courseId rest

/-! ## POST /api/payments/verify (src/routes/payments.js) -/

inductive VerifyErr
  | paymentNotFound
  | invalidSignature
deriving Repr, DecidableEq

structure VerifyOk where
  paymentId : Nat
  courseId : Nat
deriving Repr, DecidableEq

/-- POST /api/payments/verify.  The lookup is restricted to status pending;
signatureValid stands for the external HMAC check verifyPaymentSignature
(src/unnamed/part_007).  On a valid signature: payment completed, enrollment
pushed onto user.enrolledCourses, course enrollmentCount incremented. -/
def verify (w : World) (studentId razorpayOrderId razorpayPaymentId : Nat)
    (signatureValid : Bool) : World × Except VerifyErr VerifyOk :=
  match w.payments.find? (fun p =>
      p.razorpayOrderId == some razorpayOrderId && p.student == studentId
        && p.status == .pending) with
  | none => (w, .error .paymentNotFound)
  | some payment =>
    if !signatureValid then
      (w.updatePayment { payment with status := .failed }, .error .invalidSignature)
    else
      let payment1 := { payment with
        status := .completed, razorpayPaymentId := some razorpayPaymentId }
      let w1 := w.updatePayment payment1
      let w2 : World := match w1.findUser studentId with
        | none => w1
        | some user =>
          w1.setUserEnrollments studentId
            (user.enrolledCourses ++
              [{ course := payment.course, paymentStatus := .completed
                 paymentMethod := .online }])
      let w3 := w2.incEnrollmentCount payment.course
      (w3, .ok { paymentId := payment.pid, courseId := payment.course })

/-! ## PUT /api/payments/:id/approve and /reject (src/routes/payments.js) -/

inductive ApproveErr
  | notAdmin
  | paymentNotFound
  | notAuthorized
  | courseMissing
  | userMissing
  | onlyOffline
  | notPending
  | missingReason
deriving Repr, DecidableEq

/-- The HTTP status each approve/reject failure is reported with.
courseMissing and userMissing stand for a thrown TypeError (populate or
findById returned null), surfaced by the error handler as 500. -/
def ApproveErr.httpStatus : ApproveErr → Nat
  | .notAdmin => 403
  | .paymentNotFound => 404
  | .notAuthorized => 403
  | .courseMissing => 500
  | .userMissing => 500
  | .onlyOffline => 400
  | .notPending => 400
  | .missingReason => 400

/-- PUT /api/payments/:id/approve: requireAdmin, 404, instructor guard,
offline-only guard, pending-only guard, then payment.approve and the
enrollment projection (push + counter increment when no enrollment for the
course exists yet, otherwise set the existing entry completed without
touching the counter). -/
def approvePayment (w : World) (actorId : Nat) (actorRole : Role)
    (paymentId now : Nat) : World × Except ApproveErr Payment :=
  if !(actorRole == .admin || actorRole == .superadmin) then (w, .error .notAdmin)
  else
    match w.findPayment paymentId with
    | none => (w, .error .paymentNotFound)
    | some payment =>
      match w.findCourse payment.course with
      | none => (w, .error .courseMissing)
      | some course =>
        if actorRole != .superadmin && course.instructor != actorId then
          (w, .error .notAuthorized)
        else if payment.paymentMethod != .offline then (w, .error .onlyOffline)
        else if payment.status != .pending then (w, .error .notPending)
        else
          let payment1 := payment.approve actorId now
          let w1 := w.updatePayment payment1
          match w1.findUser payment.student with
          | none => (w1, .error .userMissing)
          | some user =>
            if (user.enrolledCourses.find? fun e =>
                e.course == payment.course).isSome then
              ((w1.setUserEnrollments payment.student
                  (setFirstEnrollmentCompleted payment.course
                    user.enrolledCourses)),
               .ok payment1)
            else
              (((w1.setUserEnrollments payment.student
                  (user.enrolledCourses ++
                    [{ course := payment.course, paymentStatus := .completed
                       paymentMethod := .offline }])).incEnrollmentCount
                  payment.course),
               .ok payment1)

/-- PUT /api/payments/:id/reject: requireAdmin, reason validation, 404,
instructor guard, offline-only guard, pending-only guard, then
payment.reject.  No enrollment mutation. -/
def rejectPayment (w : World) (actorId : Nat) (actorRole : Role)
    (paymentId : Nat) (reason : String) (now : Nat) :
    World × Except ApproveErr Payment :=
  if !(actorRole == .admin || actorRole == .superadmin) then (w, .error .notAdmin)
  else if reason == "" then (w, .error .missingReason)
  else
    match w.findPayment paymentId with
    | none => (w, .error .paymentNotFound)
    | some payment =>
      match w.findCourse payment.course with
      | none => (w, .error .courseMissing)
      | some course =>
        if actorRole != .superadmin && course.instructor != actorId then
          (w, .error .notAuthorized)
        else if payment.paymentMethod != .offline then (w, .error .onlyOffline)
        else if payment.status != .pending then (w, .error .notPending)
        else
          let payment1 := payment.reject actorId reason now
          (w.updatePayment payment1, .ok payment1)

/-! ## Concurrency model of POST /create-order and POST /offline

Both routes run findOne on (student, course, status pending) and, when it
returns null, later call Payment.create; the external gateway createOrder
call sits between the two (the suspension point).  The
(student, course, status) index of paymentSchema is declared WITHOUT unique,
so the create step always succeeds.  Each request is two atomic storage
steps; a schedule interleaves them. -/

structure InitiateCall where
  student : Nat
  course : Nat
  amount : Nat
  paymentMethod : PayMethod
deriving Repr, DecidableEq

inductive InitPhase
  | ready
  | checked
  | done (created : Bool)
deriving Repr, DecidableEq

def hasPendingPayment (payments : List Payment) (studentId courseId : Nat) : Bool :=
  payments.any fun p =>
    p.student == studentId && p.course == courseId && p.status == .pending

def countPending (payments : List Payment) (studentId courseId : Nat) : Nat :=
  (payments.filter fun p =>
    p.student == studentId && p.course == courseId && p.status == .pending).length

def mkPendingPayment (paymentId : Nat) (call : InitiateCall) : Payment :=
  { pid := paymentId, student := call.student, course := call.course
    amount := call.amount, paymentMethod := call.paymentMethod
    status := .pending, razorpayOrderId := none, razorpayPaymentId := none
    approvedBy := none, approvedAt := none, rejectedBy := none
    rejectedAt := none, rejectionReason := none }

structure CheckoutSys where
  payments : List Payment
  calls : List (InitiateCall × InitPhase)
  nextId : Nat
deriving Repr, DecidableEq

/-- One atomic storage step of request i: the findOne pending check
(Payment.findOne), or the unconditional Payment.create. -/
def checkoutStep (sys : CheckoutSys) (i : Nat) : CheckoutSys :=
  match sys.calls.get? i with
  | none => sys
  | some (call, phase) =>
    match phase with
    | .ready =>
      if hasPendingPayment sys.payments call.student call.course then
        { sys with calls := sys.calls.set i (call, .done false) }
      else
        { sys with calls := sys.calls.set i (call, .checked) }
    | .checked =>
      { sys with
        payments := sys.payments ++ [mkPendingPayment sys.nextId call]
        calls := sys.calls.set i (call, .done true)
        nextId := sys.nextId + 1 }
    | .done _ => sys

def checkoutRun (sys : CheckoutSys) (schedule : List Nat) : CheckoutSys :=
  schedule.foldl checkoutStep sys

/-! ## Concurrency model of POST /api/tests/:id/submit for one fixed
(test, student) pair

Each request: getAttemptCount (countDocuments) then, when the count is below
maxAttempts, TestResult.create with attemptNumber = count + 1, which the
unique (test, student, attemptNumber) index rejects with a duplicate-key
error when that attemptNumber already exists. -/

inductive SubmitPhase
  | ready
  | counted (attemptCount : Nat)
  | succeeded
  | conflicted
  | dupKeyFailed
deriving Repr, DecidableEq

structure AttemptSys where
  attemptNumbers : List Nat
  calls : List SubmitPhase
deriving Repr, DecidableEq

/-- One atomic storage step of submission i: the countDocuments + limit
check, or the unique-index-guarded insert. -/
def attemptStep (maxAttempts : Nat) (sys : AttemptSys) (i : Nat) : AttemptSys :=
  match sys.calls.get? i with
  | none => sys
  | some phase =>
    match phase with
    | .ready =>
      let attemptCount := sys.attemptNumbers.length
      if maxAttempts ≤ attemptCount then
        { sys with calls := sys.calls.set i .conflicted }
      else
        { sys with calls := sys.calls.set i (.counted attemptCount) }
    | .counted n =>
      if sys.attemptNumbers.contains (n + 1) then
        { sys with calls := sys.calls.set i .dupKeyFailed }
      else
        { sys with attemptNumbers := sys.attemptNumbers ++ [n + 1]
                   calls := sys.calls.set i .succeeded }
    | _ => sys

def attemptRun (maxAttempts : Nat) (sys : AttemptSys) (schedule : List Nat) :
    AttemptSys :=
  schedule.foldl (attemptStep maxAttempts) sys

/-- The invariant maintained by attemptStep under every interleaving: the
persisted attemptNumbers are exactly 1..n in insertion order, never more
than maxAttempts of them, and every in-flight request carries a count no
larger than the current number of attempts and below the limit. -/
def AttemptsInv (maxAttempts : Nat) (sys : AttemptSys) : Prop :=
  sys.attemptNumbers = List.range' 1 sys.attemptNumbers.length ∧
  sys.attemptNumbers.length ≤ maxAttempts ∧
  ∀ n, SubmitPhase.counted n ∈ sys.calls →
    n ≤ sys.attemptNumbers.length ∧ n < maxAttempts

/-! ## Specification-side expressions used in theorem statements -/

/-- The marks total the spec ascribes to a submission: the sum over the
answers array of question.marks when the selected option isCorrect, 0
otherwise. -/
def specMarks (t : Test) (answers : List Answer) : Nat :=
  (answers.map fun a =>
    match t.findQuestion a.questionId with
    | none => 0
    | some q =>
      match q.findOption a.selectedOption with
      | none => 0
      | some o => if o.isCorrect then q.marks else 0).sum

/-- The payments the POST /verify findOne query matches. -/
def verifyMatches (w : World) (studentId orderId : Nat) : List Payment :=
  w.payments.filter fun p =>
    p.razorpayOrderId == some orderId && p.student == studentId
      && p.status == .pending

/-! ## Concrete fixtures -/

def sampleOptions (correct : Nat) : List AnswerOption :=
  [ { oid := 1, text := "a", isCorrect := correct == 1 },
    { oid := 2, text := "b", isCorrect := correct == 2 } ]

def sampleQuestion (qid marks : Nat) : Question :=
  { qid := qid, question := "q", options := sampleOptions 1,
    explanation := "e", difficulty := "medium", marks := marks }

/-- Scenario A of the spec: five one-mark questions, passingMarks 3. -/
def sampleTest : Test :=
  createTest
    { title := "t", course := 7
      questions := [sampleQuestion 1 1, sampleQuestion 2 1, sampleQuestion 3 1,
                    sampleQuestion 4 1, sampleQuestion 5 1]
      duration := 30, totalMarks := 0, passingMarks := 3
      isPublished := true, startDate := none, endDate := none
      maxAttempts := 2, showResults := true, showCorrectAnswers := true }

def sampleEnrollment : Enrollment :=
  { course := 7, paymentStatus := .completed, paymentMethod := .online }

/-- Scenario A answers: questions 1-3 answered with the correct option 1,
questions 4-5 with the wrong option 2. -/
def scenarioAAnswers : List Answer :=
  [⟨1, 1⟩, ⟨2, 1⟩, ⟨3, 1⟩, ⟨4, 2⟩, ⟨5, 2⟩]

/-- The TestResult document submit persists for scenario A. -/
def scenarioAResult : TestResultDoc :=
  { answers :=
      [⟨1, 1, true, 1⟩, ⟨2, 1, true, 1⟩, ⟨3, 1, true, 1⟩,
       ⟨4, 2, false, 0⟩, ⟨5, 2, false, 0⟩]
    totalMarks := 5, marksObtained := 3, percentage := percentageOf 3 5
    isPassed := true, attemptNumber := 1 }

/-- A one-question, one-mark test for the duplicate-answers claim. -/
def dupTest : Test :=
  createTest
    { title := "t", course := 7, questions := [sampleQuestion 1 1]
      duration := 30, totalMarks := 0, passingMarks := 1
      isPublished := true, startDate := none, endDate := none
      maxAttempts := 1, showResults := true, showCorrectAnswers := true }

/-- The TestResult submit persists when the single correct answer of dupTest
is listed three times: 3 marks against totalMarks 1. -/
def dupResult : TestResultDoc :=
  { answers := List.replicate 3 ⟨1, 1, true, 1⟩
    totalMarks := 1, marksObtained := 3, percentage := percentageOf 3 1
    isPassed := true, attemptNumber := 1 }

/-- A test whose marks reach an IEEE half boundary: a 23-mark and a 17-mark
question give totalMarks 40, and answering only the first correctly yields
the quotient 23 / 40 = 0.575. -/
def halfTest : Test :=
  createTest
    { title := "half", course := 7
      questions := [sampleQuestion 1 23, sampleQuestion 2 17]
      duration := 30, totalMarks := 0, passingMarks := 20
      isPublished := true, startDate := none, endDate := none
      maxAttempts := 1, showResults := true, showCorrectAnswers := true }

/-- Question 1 answered with the correct option 1, question 2 with the
wrong option 2. -/
def halfAnswers : List Answer := [⟨1, 1⟩, ⟨2, 2⟩]

/-- The TestResult submit persists for halfTest: 23 of 40 marks;
(23 / 40) * 100 in doubles is 57.49999999999999289..., stored as 57. -/
def halfResult : TestResultDoc :=
  { answers := [⟨1, 1, true, 23⟩, ⟨2, 2, false, 0⟩]
    totalMarks := 40, marksObtained := 23, percentage := percentageOf 23 40
    isPassed := true, attemptNumber := 1 }

/-- A published test whose startDate (100) is in the future at now = 50. -/
def futureTest : Test :=
  createTest
    { title := "t", course := 7, questions := [sampleQuestion 1 1]
      duration := 30, totalMarks := 0, passingMarks := 1
      isPublished := true, startDate := some 100, endDate := none
      maxAttempts := 3, showResults := true, showCorrectAnswers := true }

/-- sampleTest with correctness data altered: question 1 has its isCorrect
flags flipped and its explanation changed. -/
def flippedTest : Test :=
  createTest
    { title := "t", course := 7
      questions :=
        [{ qid := 1, question := "q"
           options := [ { oid := 1, text := "a", isCorrect := false },
                        { oid := 2, text := "b", isCorrect := true } ]
           explanation := "changed", difficulty := "medium", marks := 1 },
         sampleQuestion 2 1, sampleQuestion 3 1,
         sampleQuestion 4 1, sampleQuestion 5 1]
      duration := 30, totalMarks := 0, passingMarks := 3
      isPublished := true, startDate := none, endDate := none
      maxAttempts := 2, showResults := true, showCorrectAnswers := true }

/-- A test created (through the save hook) with a single 5-mark question. -/
def staleBase : Test :=
  createTest
    { title := "stale", course := 7, questions := [sampleQuestion 1 5]
      duration := 30, totalMarks := 0, passingMarks := 3
      isPublished := true, startDate := none, endDate := none
      maxAttempts := 1, showResults := true, showCorrectAnswers := true }

/-- The PUT /:id body replacing the questions with a single 3-mark one. -/
def staleBody : TestUpdateBody :=
  { emptyUpdateBody with questions := some [sampleQuestion 1 3] }

/-- staleBase after the PUT /:id update: questions swapped, totalMarks not
recomputed because findByIdAndUpdate skips the save hook. -/
def staleUpdated : Test := findByIdAndUpdate staleBase staleBody

def sampleInitiate : InitiateCall :=
  { student := 1, course := 2, amount := 2999, paymentMethod := .online }

/-- Two concurrent checkout requests by student 1 for course 2, no payments
yet. -/
def twoInitiates : CheckoutSys :=
  { payments := [], calls := [(sampleInitiate, .ready), (sampleInitiate, .ready)]
    nextId := 1 }

/-- An online payment already settled (terminal status completed). -/
def completedPayment : Payment :=
  { pid := 10, student := 1, course := 2, amount := 2999
    paymentMethod := .online, status := .completed
    razorpayOrderId := some 11, razorpayPaymentId := some 12
    approvedBy := none, approvedAt := none, rejectedBy := none
    rejectedAt := none, rejectionReason := none }

def terminalWorld : World :=
  { users := [{ uid := 1, role := .student
                enrolledCourses := [{ course := 2, paymentStatus := .completed
                                      paymentMethod := .online }] }]
    courses := [{ cid := 2, instructor := 5, price := 2999
                  isPublished := true, enrollmentCount := 1 }]
    payments := [completedPayment] }

/-- A pending online payment awaiting gateway verification. -/
def pendingOnlinePayment : Payment :=
  { pid := 10, student := 1, course := 2, amount := 2999
    paymentMethod := .online, status := .pending
    razorpayOrderId := some 11, razorpayPaymentId := none
    approvedBy := none, approvedAt := none, rejectedBy := none
    rejectedAt := none, rejectionReason := none }

def pendingOnlineWorld : World :=
  { users := [{ uid := 1, role := .student, enrolledCourses := [] }]
    courses := [{ cid := 2, instructor := 5, price := 2999
                  isPublished := true, enrollmentCount := 0 }]
    payments := [pendingOnlinePayment] }

/-- pendingOnlineWorld after a successful verify with gateway payment 12:
payment completed, enrollment granted, counter incremented. -/
def verifiedWorld : World :=
  { users := [{ uid := 1, role := .student
                enrolledCourses := [{ course := 2, paymentStatus := .completed
                                      paymentMethod := .online }] }]
    courses := [{ cid := 2, instructor := 5, price := 2999
                  isPublished := true, enrollmentCount := 1 }]
    payments := [{ pid := 10, student := 1, course := 2, amount := 2999
                   paymentMethod := .online, status := .completed
                   razorpayOrderId := some 11, razorpayPaymentId := some 12
                   approvedBy := none, approvedAt := none, rejectedBy := none
                   rejectedAt := none, rejectionReason := none }] }

/-- A pending offline payment awaiting admin review. -/
def offlinePayment : Payment :=
  { pid := 20, student := 1, course := 2, amount := 2999
    paymentMethod := .offline, status := .pending
    razorpayOrderId := none, razorpayPaymentId := none
    approvedBy := none, approvedAt := none, rejectedBy := none
    rejectedAt := none, rejectionReason := none }

def offlineWorld : World :=
  { users := [{ uid := 1, role := .student, enrolledCourses := [] }]
    courses := [{ cid := 2, instructor := 5, price := 2999
                  isPublished := true, enrollmentCount := 0 }]
    payments := [offlinePayment] }

/-- offlineWorld after instructor 5 approves payment 20 at time 777. -/
def approvedWorld : World :=
  { users := [{ uid := 1, role := .student
                enrolledCourses := [{ course := 2, paymentStatus := .completed
                                      paymentMethod := .offline }] }]
    courses := [{ cid := 2, instructor := 5, price := 2999
                  isPublished := true, enrollmentCount := 1 }]
    payments := [{ pid := 20, student := 1, course := 2, amount := 2999
                   paymentMethod := .offline, status := .completed
                   razorpayOrderId := none, razorpayPaymentId := none
                   approvedBy := some 5, approvedAt := some 777, rejectedBy := none
                   rejectedAt := none, rejectionReason := none }] }

/-! ## Claim theorems -/

/-- C1: the source violates the at-most-one-pending-Payment invariant it
documents.  Two concurrent checkout requests for the same (student, course)
can both pass the Payment.findOne pending check before either reaches
Payment.create (the gateway createOrder call sits between the two storage
steps), and since the (student, course, status) index carries no unique
flag both creates succeed: the interleaved run ends with TWO pending
payments and two success responses, where the claim requires one success
and one Conflict.  Run without interleaving, the second request does fail
with the pending-exists conflict, which is the behaviour the claim (and the
index comment in the source) intends. -/
theorem pending_payment_race_creates_two_pendings :
    countPending (checkoutRun twoInitiates [0, 1, 0, 1]).payments 1 2 = 2
  ∧ (checkoutRun twoInitiates [0, 1, 0, 1]).calls.map (fun c => c.2)
      = [.done true, .done true]
  ∧ countPending (checkoutRun twoInitiates [0, 0, 1]).payments 1 2 = 1
  ∧ (checkoutRun twoInitiates [0, 0, 1]).calls.map (fun c => c.2)
      = [.done true, .done false] := by decide

/-- C8: evaluating the update route at the failing input.  A test saved with
one 5-mark question has totalMarks 5; the PUT /:id route then swaps the
questions for a single 3-mark question through Test.findByIdAndUpdate,
which does not run the pre-save recompute hook, so the persisted test keeps
totalMarks 5 while the sum of its question marks is 3 — the invariant
totalMarks = sum of question marks is broken.  The last conjunct shows the
save hook would have stored 3. -/
theorem totalMarks_stale_after_update :
    staleBase.totalMarks = 5
  ∧ updateTest staleBase 0 staleBody = .ok staleUpdated
  ∧ staleUpdated.totalMarks = 5
  ∧ (staleUpdated.questions.map fun q => q.marks).sum = 3
  ∧ staleUpdated.totalMarks ≠ (staleUpdated.questions.map fun q => q.marks).sum
  ∧ (saveTest staleUpdated).totalMarks = 3 := by decide

/-- C2 counterexample: two concurrent submissions with maxAttempts = 2 and
no prior attempts are maxAttempts + k submissions with k = 0, so the claim
requires exactly two successful Attempts and zero failures.  Interleaved,
both read attemptCount 0 and both try attemptNumber 1; the unique
(test, student, attemptNumber) index lets one through and rejects the other
with a duplicate-key error (not a Conflict): one success, one dupKeyFailed,
a single persisted attempt. -/
theorem attempt_race_yields_dup_key_not_conflict :
    attemptRun 2 { attemptNumbers := [], calls := [.ready, .ready] } [0, 1, 0, 1]
      = { attemptNumbers := [1], calls := [.succeeded, .dupKeyFailed] } := by
  decide

/-- C5 counterexample: re-invoking verify for the order of a Payment that is
already in the terminal status completed does NOT return the existing
terminal state — the pending-only findOne matches nothing and the route
responds with the 404 payment-not-found error (the state is left
unchanged). -/
theorem verify_on_terminal_payment_errors :
    verify terminalWorld 1 11 12 true = (terminalWorld, .error .paymentNotFound) := by
  decide

/-- C7 counterexample: for a published test whose startDate is in the
future, a submission by an enrolled student with attempts remaining fails
with the 400 test-not-active response, not with the 403 Forbidden response
the claim names — Forbidden (403) is reserved for the
unpublished-or-unpurchased guard that this student passes. -/
theorem future_start_submit_fails_400_not_403 :
    futureTest.isActive 50 = false
  ∧ submit (some futureTest) [sampleEnrollment] 0 50 [] = .error .testNotActive
  ∧ SubmitErr.testNotActive.httpStatus = 400
  ∧ SubmitErr.notAuthorized.httpStatus = 403
  ∧ SubmitErr.testNotActive ≠ SubmitErr.notAuthorized := by decide

/-- C3 counterexample: the percentage formula of the claim — exact rational
rounding of (marksObtained / totalMarks) * 100 — fails on the code at the
half-boundary input marksObtained 23, totalMarks 40.  The route and the
pre-save hook compute in IEEE binary64: (23 / 40) * 100 evaluates to the
double 57.49999999999999289..., which Math.round takes to 57, while exact
rounding of 57.5 gives 58. -/
theorem percentage_half_boundary_ieee :
    submit (some halfTest) [sampleEnrollment] 0 50 halfAnswers = .ok halfResult
  ∧ halfResult.marksObtained = 23
  ∧ halfTest.totalMarks = 40
  ∧ halfResult.percentage = 57
  ∧ round ((23 : ℚ) / 40 * 100) = 58
  ∧ halfResult.percentage ≠ round ((23 : ℚ) / 40 * 100) := by
  have h57 : halfResult.percentage = 57 := by decide
  have h58 : round ((23 : ℚ) / 40 * 100) = 58 := by norm_num [round_eq]
  refine ⟨rfl, rfl, by decide, h57, h58, ?_⟩
  rw [h57, h58]
  decide

/-- The grading loop computes the sum the spec describes, on top of any
accumulator. -/
theorem gradeLoop_ok_marks (t : Test) :
    ∀ (answers : List Answer) (m : Nat) (acc : List GradedAnswer)
      (res : Nat × List GradedAnswer),
      gradeLoop t answers m acc = .ok res → res.1 = m + specMarks t answers := by
  intro answers
  induction answers with
  | nil =>
    intro m acc res h
    simp only [gradeLoop] at h
    cases h
    simp [specMarks]
  | cons a rest ih =>
    intro m acc res h
    cases hq : t.findQuestion a.questionId with
    | none =>
      simp only [gradeLoop, hq] at h
      exact absurd h (by simp)
    | some q =>
      cases ho : q.findOption a.selectedOption with
      | none =>
        simp only [gradeLoop, hq, ho] at h
        exact absurd h (by simp)
      | some o =>
        simp only [gradeLoop, hq, ho] at h
        have hr := ih _ _ _ h
        simp only [specMarks, List.map_cons, List.sum_cons, hq, ho] at hr ⊢
        omega

/-- The grading loop reads only the questions of the test. -/
theorem gradeLoop_congr (t t2 : Test) (hq : t2.questions = t.questions) :
    ∀ (answers : List Answer) (m : Nat) (acc : List GradedAnswer),
      gradeLoop t2 answers m acc = gradeLoop t answers m acc := by
  have hfq : ∀ questionId, t2.findQuestion questionId = t.findQuestion questionId := by
    intro questionId
    simp [Test.findQuestion, hq]
  intro answers
  induction answers with
  | nil => intro m acc; rfl
  | cons a rest ih =>
    intro m acc
    cases hfind : t.findQuestion a.questionId with
    | none => simp [gradeLoop, hfq, hfind]
    | some q =>
      cases ho : q.findOption a.selectedOption with
      | none => simp [gradeLoop, hfq, hfind, ho]
      | some o =>
        simp only [gradeLoop, hfq, hfind, ho]
        exact ih _ _

/-- C3 (amended): whenever submit succeeds, marksObtained is the sum of
question.marks over the answers whose selected option has isCorrect = true
(0 otherwise), percentage is Math.round((marksObtained / totalMarks) * 100)
evaluated in IEEE binary64 double arithmetic (and 0 when totalMarks = 0) —
at half-boundary quotients this is one below exact rational rounding, see
the counterexample theorem — isPassed holds exactly when marksObtained
reaches passingMarks, and grading depends on nothing but
(test.questions, answers), so identical inputs give identical results. -/
theorem grading_sum_percentage_passed
    (t : Test) (enrolledCourses : List Enrollment) (attemptCount now : Nat)
    (answers : List Answer) (r : TestResultDoc)
    (h : submit (some t) enrolledCourses attemptCount now answers = .ok r) :
    r.marksObtained = specMarks t answers
  ∧ r.totalMarks = t.totalMarks
  ∧ r.percentage =
      (if t.totalMarks = 0 then 0
       else (jsRound (flMul100 (flDiv r.marksObtained t.totalMarks)) : ℤ))
  ∧ (r.isPassed = true ↔ t.passingMarks ≤ r.marksObtained)
  ∧ (∀ t2 : Test, t2.questions = t.questions →
      gradeLoop t2 answers 0 [] = gradeLoop t answers 0 []) := by
  simp only [submit] at h
  split at h
  · exact absurd h (by simp)
  · split at h
    · exact absurd h (by simp)
    · split at h
      · exact absurd h (by simp)
      · cases hg : gradeLoop t answers 0 [] with
        | error e => rw [hg] at h; exact absurd h (by simp)
        | ok p =>
          obtain ⟨m, ga⟩ := p
          rw [hg] at h
          cases h
          have hm : m = specMarks t answers := by
            have := gradeLoop_ok_marks t answers 0 [] (m, ga) hg
            simpa using this
          refine ⟨hm, rfl, ?_, ?_,
            fun t2 h2 => (gradeLoop_congr t t2 h2 answers 0 []).trans hg⟩
          · show percentageOf m t.totalMarks = _
            unfold percentageOf
            cases Nat.eq_zero_or_pos t.totalMarks with
            | inl h0 => simp [h0]
            | inr hpos => simp [hpos, Nat.pos_iff_ne_zero.mp hpos]
          · show decide (t.passingMarks ≤ m) = true ↔ t.passingMarks ≤ m
            exact decide_eq_true_iff

/-- C3 witness: scenario A of the spec — five one-mark questions,
passingMarks 3, three correct answers: 3 marks, 60 percent, passed. -/
theorem grading_sum_percentage_passed_witness :
    submit (some sampleTest) [sampleEnrollment] 0 50 scenarioAAnswers
      = .ok scenarioAResult
  ∧ scenarioAResult.marksObtained = specMarks sampleTest scenarioAAnswers
  ∧ scenarioAResult.percentage = 60
  ∧ scenarioAResult.isPassed = true := by
  have h := grading_sum_percentage_passed sampleTest [sampleEnrollment] 0 50
    scenarioAAnswers scenarioAResult rfl
  exact ⟨rfl, h.1, by decide, rfl⟩

/-- Grading a k-fold repetition of one correctly-answered question counts
its marks k times, on top of any accumulator. -/
theorem gradeLoop_replicate (t : Test) (a : Answer) (q : Question)
    (o : AnswerOption)
    (hq : t.findQuestion a.questionId = some q)
    (ho : q.findOption a.selectedOption = some o)
    (hc : o.isCorrect = true) :
    ∀ (k m : Nat) (acc : List GradedAnswer),
      gradeLoop t (List.replicate k a) m acc
        = .ok (m + k * q.marks,
            acc.reverse ++ List.replicate k
              { questionId := a.questionId, selectedOption := a.selectedOption
                isCorrect := true, marksObtained := q.marks }) := by
  intro k
  induction k with
  | zero => intro m acc; simp [gradeLoop]
  | succ n ih =>
    intro m acc
    rw [List.replicate_succ]
    simp only [gradeLoop, hq, ho, hc, if_true]
    rw [ih]
    have hm : m + q.marks + n * q.marks = m + (n + 1) * q.marks := by ring
    rw [hm, List.reverse_cons, List.append_assoc]
    rfl

/-- C9: submit grades every entry of the answers array independently, with
no deduplication by questionId and no Validation error for duplicates: a
correctly-answered question listed k times contributes k times its marks,
and concretely listing the single 1-mark question of dupTest three times is
accepted with marksObtained 3 against totalMarks 1 — percentage 300. -/
theorem duplicate_answers_counted_each_time
    (t : Test) (a : Answer) (q : Question) (o : AnswerOption) (k : Nat)
    (hq : t.findQuestion a.questionId = some q)
    (ho : q.findOption a.selectedOption = some o)
    (hc : o.isCorrect = true) :
    gradeLoop t (List.replicate k a) 0 []
      = .ok (k * q.marks,
          List.replicate k
            { questionId := a.questionId, selectedOption := a.selectedOption
              isCorrect := true, marksObtained := q.marks })
  ∧ submit (some dupTest) [sampleEnrollment] 0 50 (List.replicate 3 ⟨1, 1⟩)
      = .ok dupResult
  ∧ dupResult.marksObtained = 3
  ∧ dupTest.totalMarks = 1
  ∧ dupResult.percentage = 300 := by
  refine ⟨?_, rfl, rfl, rfl, by decide⟩
  simpa using gradeLoop_replicate t a q o hq ho hc k 0 []

/-- C9 witness: the theorem applied to dupTest with its one question
duplicated twice. -/
theorem duplicate_answers_counted_each_time_witness :
    gradeLoop dupTest (List.replicate 2 ⟨1, 1⟩) 0 []
      = .ok (2 * (sampleQuestion 1 1).marks,
          List.replicate 2
            { questionId := 1, selectedOption := 1
              isCorrect := true, marksObtained := (sampleQuestion 1 1).marks })
  ∧ dupResult.percentage = 300 := by
  have h := duplicate_answers_counted_each_time dupTest ⟨1, 1⟩ (sampleQuestion 1 1)
    { oid := 1, text := "a", isCorrect := true } 2 rfl rfl rfl
  exact ⟨h.1, h.2.2.2.2⟩

/-- getQuestionsForStudent does not change when correctness data is
erased. -/
theorem getQuestionsForStudent_erase (t : Test) :
    (eraseCorrectness t).getQuestionsForStudent = t.getQuestionsForStudent := by
  unfold eraseCorrectness Test.getQuestionsForStudent
  simp only [List.map_map]
  congr 1
  funext q
  simp only [Function.comp]
  congr 1
  rw [List.map_map]
  exact List.map_congr_left fun o _ => rfl

/-- The student response of GET /:id does not change when correctness data
is erased. -/
theorem studentTestView_erase (t : Test) (attemptCount now : Nat) :
    studentTestView (eraseCorrectness t) attemptCount now
      = studentTestView t attemptCount now := by
  have h := getQuestionsForStudent_erase t
  simp only [studentTestView]
  rw [h]
  rfl

/-- C10: the view a student receives for a test — question text, marks,
difficulty and each option id and text, plus the attempt counters — is a
function of the correctness-erased test alone: two tests that differ only
in isCorrect flags or explanations produce identical student responses and
identical question lists. -/
theorem student_view_ignores_correctness
    (t t2 : Test) (attemptCount now : Nat)
    (h : eraseCorrectness t = eraseCorrectness t2) :
    studentTestView t attemptCount now = studentTestView t2 attemptCount now
  ∧ t.getQuestionsForStudent = t2.getQuestionsForStudent := by
  constructor
  · rw [← studentTestView_erase t, h, studentTestView_erase]
  · rw [← getQuestionsForStudent_erase t, h, getQuestionsForStudent_erase]

/-- C10 witness: flippedTest flips an isCorrect flag and edits an
explanation of sampleTest; the two student views coincide although the
tests differ. -/
theorem student_view_ignores_correctness_witness :
    eraseCorrectness sampleTest = eraseCorrectness flippedTest
  ∧ sampleTest ≠ flippedTest
  ∧ studentTestView sampleTest 0 50 = studentTestView flippedTest 0 50 := by
  refine ⟨by decide, by decide, ?_⟩
  exact (student_view_ignores_correctness sampleTest flippedTest 0 50 (by decide)).1

/-- C7 (amended): isActive holds exactly when the test is published, now is
at or after startDate (or startDate unset) and at or before endDate (or
endDate unset); and for a test whose startDate is in the future, isActive is
false and submit always fails — with the 403 Forbidden response when the
test is unpublished or the student unenrolled, and otherwise with the 400
test-not-active response (not Forbidden) — regardless of enrollment and of
the remaining attempt quota, so no Attempt is ever created. -/
theorem isActive_window_and_future_start (t : Test) (now : Nat) :
    (t.isActive now = true ↔
      t.isPublished = true ∧ (∀ s ∈ t.startDate, s ≤ now) ∧ (∀ e ∈ t.endDate, now ≤ e))
  ∧ (∀ s, t.startDate = some s → now < s →
      t.isActive now = false ∧
      ∀ (enrolledCourses : List Enrollment) (attemptCount : Nat)
        (answers : List Answer),
        ∃ err, submit (some t) enrolledCourses attemptCount now answers = .error err
          ∧ (err = .notAuthorized ∨ err = .testNotActive)
          ∧ (t.isPublished = true →
              hasPurchasedCourse enrolledCourses t.course = true →
              err = .testNotActive)) := by
  constructor
  · cases hp : t.isPublished <;> cases hs : t.startDate <;> cases he : t.endDate <;>
      simp [Test.isActive, hp, hs, he]
  · intro s hs hlt
    have hact : t.isActive now = false := by
      cases hp : t.isPublished <;> simp [Test.isActive, hp, hs, hlt]
    refine ⟨hact, ?_⟩
    intro enrolledCourses attemptCount answers
    cases hgate : (t.isPublished && hasPurchasedCourse enrolledCourses t.course) with
    | false =>
      refine ⟨.notAuthorized, by simp [submit, hgate], Or.inl rfl, ?_⟩
      intro hp hpc
      rw [hp, hpc] at hgate
      exact absurd hgate (by simp)
    | true =>
      exact ⟨.testNotActive, by simp [submit, hgate, hact], Or.inr rfl,
        fun _ _ => rfl⟩

/-- C7 witness: the amended theorem applied to futureTest at now = 50, with
an enrolled student whose quota is even exhausted (attemptCount 3 =
maxAttempts). -/
theorem isActive_window_and_future_start_witness :
    futureTest.isActive 50 = false
  ∧ ∃ err, submit (some futureTest) [sampleEnrollment] 3 50 [⟨1, 1⟩]
      = .error err ∧ (err = .notAuthorized ∨ err = .testNotActive) := by
  have h := (isActive_window_and_future_start futureTest 50).2 100 rfl (by decide)
  obtain ⟨err, h1, h2, h3⟩ := h.2 [sampleEnrollment] 3 [⟨1, 1⟩]
  exact ⟨h.1, err, h1, h2⟩

/-- When the pending-only findOne of POST /verify matches nothing, the route
is a state no-op answering the 404 payment-not-found error. -/
theorem verify_noop_of_no_match (w : World)
    (studentId orderId payRef : Nat) (signatureValid : Bool)
    (hfind : w.payments.find? (fun p =>
        p.razorpayOrderId == some orderId && p.student == studentId
          && p.status == .pending) = none) :
    verify w studentId orderId payRef signatureValid
      = (w, .error .paymentNotFound) := by
  simp only [verify, hfind]

/-- C5 (amended): when no pending payment matches (student, orderRef) — in
particular when the payment for that order is already in a terminal status —
re-invoking verify is a state no-op but responds with the 404
payment-not-found error rather than returning the terminal state. -/
theorem verify_without_pending_is_noop (w : World)
    (studentId orderId payRef : Nat) (signatureValid : Bool)
    (h : ∀ p ∈ w.payments, p.razorpayOrderId = some orderId →
      p.student = studentId → p.status ≠ .pending) :
    verify w studentId orderId payRef signatureValid
      = (w, .error .paymentNotFound) := by
  apply verify_noop_of_no_match
  rw [List.find?_eq_none]
  intro p hp hc
  simp only [Bool.and_eq_true, beq_iff_eq] at hc
  exact h p hp hc.1.1 hc.1.2 hc.2

/-- C5 witness: the amended theorem applied to the world holding only the
completed payment for order 11. -/
theorem verify_without_pending_is_noop_witness :
    verify terminalWorld 1 11 99 true = (terminalWorld, .error .paymentNotFound) :=
  verify_without_pending_is_noop terminalWorld 1 11 99 true (by decide)

/-- attemptStep preserves AttemptsInv under every interleaving choice. -/
theorem attemptStep_preserves_inv (maxAttempts : Nat) (sys : AttemptSys)
    (i : Nat) (h : AttemptsInv maxAttempts sys) :
    AttemptsInv maxAttempts (attemptStep maxAttempts sys i) := by
  obtain ⟨hnum, hlen, hcalls⟩ := h
  unfold attemptStep
  cases hget : sys.calls.get? i with
  | none => exact ⟨hnum, hlen, hcalls⟩
  | some phase =>
    cases phase with
    | ready =>
      by_cases hq : maxAttempts ≤ sys.attemptNumbers.length
      · simp only [if_pos hq]
        refine ⟨hnum, hlen, ?_⟩
        intro n hn
        rcases List.mem_or_eq_of_mem_set hn with h1 | h1
        · exact hcalls n h1
        · simp at h1
      · simp only [if_neg hq]
        refine ⟨hnum, hlen, ?_⟩
        intro n hn
        rcases List.mem_or_eq_of_mem_set hn with h1 | h1
        · exact hcalls n h1
        · cases h1
          show sys.attemptNumbers.length ≤ sys.attemptNumbers.length ∧
            sys.attemptNumbers.length < maxAttempts
          omega
    | counted n =>
      obtain ⟨hcl, hcm⟩ := hcalls n (List.get?_mem hget)
      by_cases hmem : sys.attemptNumbers.contains (n + 1) = true
      · simp only [if_pos hmem]
        refine ⟨hnum, hlen, ?_⟩
        intro n2 hn2
        rcases List.mem_or_eq_of_mem_set hn2 with h1 | h1
        · exact hcalls n2 h1
        · simp at h1
      · have hmem2 : (n + 1) ∉ sys.attemptNumbers := fun hin =>
          hmem (List.elem_iff.mpr hin)
        simp only [if_neg hmem]
        have hn_eq : n = sys.attemptNumbers.length := by
          rcases Nat.lt_or_ge n sys.attemptNumbers.length with hlt | hge
          · exfalso
            apply hmem2
            rw [hnum]
            simp only [List.mem_range'_1]
            omega
          · omega
        refine ⟨?_, ?_, ?_⟩
        · show sys.attemptNumbers ++ [n + 1]
            = List.range' 1 (sys.attemptNumbers ++ [n + 1]).length
          rw [List.length_append]
          simp only [List.length_cons, List.length_nil]
          rw [List.range'_1_concat, ← hnum, hn_eq]
          congr 1
          simp [Nat.add_comm]
        · show (sys.attemptNumbers ++ [n + 1]).length ≤ maxAttempts
          rw [List.length_append]
          simp only [List.length_cons, List.length_nil]
          omega
        · intro n2 hn2
          show n2 ≤ (sys.attemptNumbers ++ [n + 1]).length ∧ n2 < maxAttempts
          rw [List.length_append]
          simp only [List.length_cons, List.length_nil]
          rcases List.mem_or_eq_of_mem_set hn2 with h1 | h1
          · have h2 := hcalls n2 h1
            omega
          · simp at h1
    | succeeded => exact ⟨hnum, hlen, hcalls⟩
    | conflicted => exact ⟨hnum, hlen, hcalls⟩
    | dupKeyFailed => exact ⟨hnum, hlen, hcalls⟩

/-- attemptRun preserves AttemptsInv: fold of attemptStep_preserves_inv. -/
theorem attemptRun_inv (maxAttempts : Nat) :
    ∀ (schedule : List Nat) (sys : AttemptSys),
      AttemptsInv maxAttempts sys →
      AttemptsInv maxAttempts (attemptRun maxAttempts sys schedule) := by
  intro schedule
  induction schedule with
  | nil => intro sys h; exact h
  | cons i rest ih =>
    intro sys h
    exact ih _ (attemptStep_preserves_inv maxAttempts sys i h)

/-- C2 (amended): for one (test, student) pair, under every interleaving of
any number of concurrent submissions the persisted attemptNumbers are
exactly the gap-free, duplicate-free 1-based sequence 1..n (in insertion
order) with n ≤ maxAttempts — so at most maxAttempts submissions ever
succeed — and a submission that observes attemptsUsed ≥ maxAttempts fails
with the Conflict response and creates no Attempt.  The claim's stronger
accounting (maxAttempts + k concurrent submissions give exactly maxAttempts
successes and k Conflict failures) fails: racing submissions can instead
fail on the unique (test, student, attemptNumber) index with a
duplicate-key error, leaving fewer than maxAttempts successes (see the
counterexample theorem). -/
theorem attempt_numbers_gapfree_bounded (k maxAttempts : Nat)
    (schedule : List Nat) :
    ((attemptRun maxAttempts
        { attemptNumbers := [], calls := List.replicate k .ready }
        schedule).attemptNumbers
      = List.range' 1
          (attemptRun maxAttempts
            { attemptNumbers := [], calls := List.replicate k .ready }
            schedule).attemptNumbers.length)
  ∧ (attemptRun maxAttempts
        { attemptNumbers := [], calls := List.replicate k .ready }
        schedule).attemptNumbers.length ≤ maxAttempts
  ∧ (∀ (sys : AttemptSys) (i : Nat),
      maxAttempts ≤ sys.attemptNumbers.length →
      sys.calls.get? i = some .ready →
      attemptStep maxAttempts sys i
        = { sys with calls := sys.calls.set i .conflicted }) := by
  have hinit : AttemptsInv maxAttempts
      { attemptNumbers := ([] : List Nat), calls := List.replicate k .ready } := by
    refine ⟨rfl, by simp, ?_⟩
    intro n hn
    have h1 := List.eq_of_mem_replicate hn
    simp at h1
  have h := attemptRun_inv maxAttempts schedule _ hinit
  refine ⟨h.1, h.2.1, ?_⟩
  intro sys i hq hget
  simp only [attemptStep, hget, if_pos hq]

/-- C2 witness: the amended theorem at two racing submissions with
maxAttempts 2 (the persisted numbers are the gap-free [1]), and the
quota-exhausted Conflict branch at a concrete full state. -/
theorem attempt_numbers_gapfree_bounded_witness :
    (attemptRun 2 { attemptNumbers := [], calls := List.replicate 2 .ready }
        [0, 1, 0, 1]).attemptNumbers = List.range' 1 1
  ∧ attemptStep 2 { attemptNumbers := [1, 2], calls := [.ready] } 0
      = { attemptNumbers := [1, 2], calls := [.conflicted] } := by
  have h := attempt_numbers_gapfree_bounded 2 2 [0, 1, 0, 1]
  constructor
  · have h1 := h.1
    have hlen : (attemptRun 2
        { attemptNumbers := [], calls := List.replicate 2 .ready }
        [0, 1, 0, 1]).attemptNumbers.length = 1 := by decide
    rw [hlen] at h1
    exact h1
  · exact h.2.2 { attemptNumbers := [1, 2], calls := [.ready] } 0
      (by decide) (by decide)

/-- updatePayment leaves the user collection untouched. -/
theorem World.findUser_updatePayment (w : World) (p : Payment) (userId : Nat) :
    (w.updatePayment p).findUser userId = w.findUser userId := rfl

/-- C6: given an admin-or-superadmin actor authorized for the payment's
course, approve and reject fail with the 400 Conflict-class responses
(only-offline, not-pending) unless the payment has method offline and
status pending; when it does, approve transitions it to completed stamping
approvedBy = actor and approvedAt = now, and reject transitions it to
failed stamping rejectedBy = actor, rejectedAt = now and the reason. -/
theorem approve_reject_guards
    (w : World) (actorId : Nat) (actorRole : Role) (paymentId now : Nat)
    (reason : String) (payment : Payment) (course : CourseDoc)
    (hrole : actorRole = .admin ∨ actorRole = .superadmin)
    (hfind : w.findPayment paymentId = some payment)
    (hcourse : w.findCourse payment.course = some course)
    (hauth : actorRole = .superadmin ∨ course.instructor = actorId)
    (huser : (w.findUser payment.student).isSome = true)
    (hreason : reason ≠ "") :
    (payment.paymentMethod = .offline → payment.status = .pending →
      (∃ w2, approvePayment w actorId actorRole paymentId now
          = (w2, .ok (payment.approve actorId now)))
      ∧ (payment.approve actorId now).status = .completed
      ∧ (payment.approve actorId now).approvedBy = some actorId
      ∧ (payment.approve actorId now).approvedAt = some now)
  ∧ (payment.paymentMethod ≠ .offline →
      approvePayment w actorId actorRole paymentId now = (w, .error .onlyOffline)
      ∧ rejectPayment w actorId actorRole paymentId reason now
          = (w, .error .onlyOffline))
  ∧ (payment.paymentMethod = .offline → payment.status ≠ .pending →
      approvePayment w actorId actorRole paymentId now = (w, .error .notPending)
      ∧ rejectPayment w actorId actorRole paymentId reason now
          = (w, .error .notPending))
  ∧ (payment.paymentMethod = .offline → payment.status = .pending →
      rejectPayment w actorId actorRole paymentId reason now
        = (w.updatePayment (payment.reject actorId reason now),
           .ok (payment.reject actorId reason now))
      ∧ (payment.reject actorId reason now).status = .failed
      ∧ (payment.reject actorId reason now).rejectedBy = some actorId
      ∧ (payment.reject actorId reason now).rejectedAt = some now
      ∧ (payment.reject actorId reason now).rejectionReason = some reason) := by
  have hgr : (actorRole == Role.admin || actorRole == Role.superadmin) = true := by
    rcases hrole with h | h <;> simp [h]
  have hai : (actorRole != Role.superadmin && course.instructor != actorId)
      = false := by
    rcases hauth with h | h <;> simp [h]
  have hrs : (reason == "") = false := by
    simp [hreason]
  refine ⟨?_, ?_, ?_, ?_⟩
  · intro hm hp
    have hm2 : (payment.paymentMethod != PayMethod.offline) = false := by simp [hm]
    have hp2 : (payment.status != PayStatus.pending) = false := by simp [hp]
    obtain ⟨user, huser2⟩ := Option.isSome_iff_exists.mp huser
    refine ⟨?_, rfl, rfl, rfl⟩
    simp only [approvePayment, hgr, Bool.not_true, Bool.false_eq_true, if_false,
      hfind, hcourse, hai, hm2, hp2, World.findUser_updatePayment, huser2]
    cases hfe : (user.enrolledCourses.find? fun e =>
        e.course == payment.course).isSome
    · exact ⟨_, by rw [if_neg Bool.false_ne_true]⟩
    · exact ⟨_, by rw [if_pos rfl]⟩
  · intro hm
    have hm2 : (payment.paymentMethod != PayMethod.offline) = true := by
      simp [hm]
    constructor
    · simp only [approvePayment, hgr, Bool.not_true, Bool.false_eq_true, if_false,
        hfind, hcourse, hai, hm2, if_true]
    · simp only [rejectPayment, hgr, Bool.not_true, Bool.false_eq_true, if_false,
        hrs, hfind, hcourse, hai, hm2, if_true]
  · intro hm hp
    have hm2 : (payment.paymentMethod != PayMethod.offline) = false := by simp [hm]
    have hp2 : (payment.status != PayStatus.pending) = true := by simp [hp]
    constructor
    · simp only [approvePayment, hgr, Bool.not_true, Bool.false_eq_true, if_false,
        hfind, hcourse, hai, hm2, hp2, if_true]
    · simp only [rejectPayment, hgr, Bool.not_true, Bool.false_eq_true, if_false,
        hrs, hfind, hcourse, hai, hm2, hp2, if_true]
  · intro hm hp
    have hm2 : (payment.paymentMethod != PayMethod.offline) = false := by simp [hm]
    have hp2 : (payment.status != PayStatus.pending) = false := by simp [hp]
    refine ⟨?_, rfl, rfl, rfl, rfl⟩
    simp only [rejectPayment, hgr, Bool.not_true, Bool.false_eq_true, if_false,
      hrs, hfind, hcourse, hai, hm2, hp2]

/-- C6 witness: instructor 5 approves (respectively rejects) the pending
offline payment 20, and cannot approve or reject the completed one. -/
theorem approve_reject_guards_witness :
    (∃ w2, approvePayment offlineWorld 5 .admin 20 777
        = (w2, .ok (offlinePayment.approve 5 777)))
  ∧ (offlinePayment.approve 5 777).status = .completed
  ∧ rejectPayment offlineWorld 5 .admin 20 "no receipt" 777
      = (offlineWorld.updatePayment (offlinePayment.reject 5 "no receipt" 777),
         .ok (offlinePayment.reject 5 "no receipt" 777))
  ∧ (offlinePayment.reject 5 "no receipt" 777).rejectionReason
      = some "no receipt" := by
  have h := approve_reject_guards offlineWorld 5 .admin 20 777 "no receipt"
    offlinePayment { cid := 2, instructor := 5, price := 2999
                     isPublished := true, enrollmentCount := 0 }
    (Or.inl rfl) (by decide) (by decide) (Or.inr rfl) (by decide) (by decide)
  obtain ⟨h1, h2, h3, h4⟩ := h
  obtain ⟨he, hs, _, _⟩ := h1 rfl rfl
  obtain ⟨hr, hrs, _, _, hrr⟩ := h4 rfl rfl
  exact ⟨he, hs, hr, hrr⟩

/-- A list of length at most one has at most one member. -/
theorem eq_of_length_le_one {α : Type} {l : List α} (h : l.length ≤ 1)
    {a b : α} (ha : a ∈ l) (hb : b ∈ l) : a = b := by
  cases l with
  | nil => cases ha
  | cons x rest =>
    cases rest with
    | nil =>
      simp only [List.mem_singleton] at ha hb
      rw [ha, hb]
    | cons y rest2 =>
      exfalso
      simp only [List.length_cons] at h
      omega

/-- find? commutes with a map that does not change the predicate value. -/
theorem find?_map_comm {α : Type} (f : α → α) (p : α → Bool)
    (hpf : ∀ a, p (f a) = p a) (l : List α) :
    (l.map f).find? p = (l.find? p).map f := by
  rw [List.find?_map]
  rw [show (p ∘ f) = p from funext hpf]

/-- C4: replaying a settlement is a no-op.  Online path: once verify has
settled the pending payment for (student, orderRef) — assuming at most one
payment matches that query, as a gateway order reference is created fresh
per payment — re-running verify for the same order returns the 404
payment-not-found error and leaves the world exactly as after the single
application, and the first application incremented the course
enrollmentCount exactly once.  Offline path: once approve has settled a
pending offline payment, re-running approve on it returns the not-pending
Conflict and leaves the world exactly as after the single application (in
particular the enrollment state and the counter are those of one
application). -/
theorem settlement_replay_idempotent :
    (∀ (w : World) (studentId orderId payRef payRef2 : Nat) (sig2 : Bool)
        (payment : Payment) (user : UserDoc),
      w.payments.find? (fun p =>
          p.razorpayOrderId == some orderId && p.student == studentId
            && p.status == .pending) = some payment →
      w.findUser studentId = some user →
      (verifyMatches w studentId orderId).length ≤ 1 →
      ∃ w1, verify w studentId orderId payRef true
            = (w1, .ok { paymentId := payment.pid, courseId := payment.course })
        ∧ verify w1 studentId orderId payRef2 sig2
            = (w1, .error .paymentNotFound)
        ∧ ((w.findCourse payment.course).isSome = true →
            w1.enrollmentCountOf payment.course
              = w.enrollmentCountOf payment.course + 1))
  ∧ (∀ (w : World) (actorId : Nat) (actorRole : Role) (paymentId now now2 : Nat)
        (payment : Payment) (course : CourseDoc),
      (actorRole = .admin ∨ actorRole = .superadmin) →
      w.findPayment paymentId = some payment →
      w.findCourse payment.course = some course →
      (actorRole = .superadmin ∨ course.instructor = actorId) →
      (w.findUser payment.student).isSome = true →
      payment.paymentMethod = .offline →
      payment.status = .pending →
      ∃ w2, approvePayment w actorId actorRole paymentId now
            = (w2, .ok (payment.approve actorId now))
        ∧ approvePayment w2 actorId actorRole paymentId now2
            = (w2, .error .notPending)) := by
  constructor
  · intro w studentId orderId payRef payRef2 sig2 payment user hfound huser huniq
    have hpred := List.find?_some hfound
    simp only [Bool.and_eq_true, beq_iff_eq] at hpred
    obtain ⟨⟨hoid, hstu⟩, hstat⟩ := hpred
    refine ⟨((w.updatePayment
        { payment with
          status := PayStatus.completed
          razorpayPaymentId := some payRef }).setUserEnrollments studentId
        (user.enrolledCourses ++
          [{ course := payment.course, paymentStatus := .completed
             paymentMethod := .online }])).incEnrollmentCount payment.course,
      ?_, ?_, ?_⟩
    · simp only [verify, hfound, Bool.not_true, Bool.false_eq_true, if_false,
        World.findUser_updatePayment, huser]
    · apply verify_noop_of_no_match
      rw [List.find?_eq_none]
      intro p hp hpx
      have hp2 : p ∈ w.payments.map (fun q =>
          if q.pid == payment.pid then
            { payment with
              status := PayStatus.completed
              razorpayPaymentId := some payRef }
          else q) := hp
      rcases List.mem_map.mp hp2 with ⟨q, hq, hfq⟩
      by_cases hqp : (q.pid == payment.pid) = true
      · simp only [if_pos hqp] at hfq
        rw [← hfq] at hpx
        simp at hpx
      · simp only [if_neg hqp] at hfq
        rw [← hfq] at hpx
        have hpm0 := List.find?_some hfound
        have hqmem : q ∈ verifyMatches w studentId orderId :=
          List.mem_filter.mpr ⟨hq, hpx⟩
        have hpmem : payment ∈ verifyMatches w studentId orderId :=
          List.mem_filter.mpr ⟨List.mem_of_find?_eq_some hfound, hpm0⟩
        have hqe : q = payment := eq_of_length_le_one huniq hqmem hpmem
        apply hqp
        rw [hqe]
        exact beq_self_eq_true payment.pid
    · intro hcs
      obtain ⟨c, hc⟩ := Option.isSome_iff_exists.mp hcs
      have hc2 : w.courses.find? (fun cc => cc.cid == payment.course) = some c :=
        hc
      have hcp : (c.cid == payment.course) = true := by
        have h2 := List.find?_some hc2
        exact h2
      have hpf : ∀ cc : CourseDoc,
          (((fun cc : CourseDoc =>
            if cc.cid == payment.course
            then { cc with enrollmentCount := cc.enrollmentCount + 1 }
            else cc) cc).cid == payment.course) = (cc.cid == payment.course) := by
        intro cc
        by_cases hcc : (cc.cid == payment.course) = true
        · simp only [if_pos hcc]
        · simp only [if_neg hcc]
      have hfc : (w.courses.map (fun cc =>
          if cc.cid == payment.course
          then { cc with enrollmentCount := cc.enrollmentCount + 1 }
          else cc)).find? (fun cc => cc.cid == payment.course)
            = some { c with enrollmentCount := c.enrollmentCount + 1 } := by
        rw [find?_map_comm _ _ hpf, hc2, Option.map_some']
        simp only [if_pos hcp]
      show (((w.courses.map (fun cc =>
          if cc.cid == payment.course
          then { cc with enrollmentCount := cc.enrollmentCount + 1 }
          else cc)).find? (fun cc => cc.cid == payment.course)).map
            (fun cc => cc.enrollmentCount)).getD 0
          = w.enrollmentCountOf payment.course + 1
      rw [hfc]
      simp only [World.enrollmentCountOf, World.findCourse, hc2, Option.map_some',
        Option.getD_some]
  · intro w actorId actorRole paymentId now now2 payment course
      hrole hfind hcourse hauth huser hm hp
    have hgr : (actorRole == Role.admin || actorRole == Role.superadmin) = true := by
      rcases hrole with h | h <;> simp [h]
    have hai : (actorRole != Role.superadmin && course.instructor != actorId)
        = false := by
      rcases hauth with h | h <;> simp [h]
    have hm2 : (payment.paymentMethod != PayMethod.offline) = false := by simp [hm]
    have hp2 : (payment.status != PayStatus.pending) = false := by simp [hp]
    have hpid : payment.pid = paymentId := by
      simpa using List.find?_some hfind
    obtain ⟨user, huser2⟩ := Option.isSome_iff_exists.mp huser
    have hfind2 : w.payments.find? (fun q => q.pid == paymentId) = some payment :=
      hfind
    have hcourse2 : w.courses.find? (fun cc => cc.cid == payment.course)
        = some course := hcourse
    have hfp : ∀ l : List Enrollment,
        (((w.updatePayment (payment.approve actorId now)).setUserEnrollments
            payment.student l)).findPayment paymentId
          = some (payment.approve actorId now) := by
      intro l
      show (w.payments.map fun q =>
          if q.pid == (payment.approve actorId now).pid
          then payment.approve actorId now else q).find?
            (fun q => q.pid == paymentId) = some (payment.approve actorId now)
      have hpf : ∀ q : Payment,
          (((fun q : Payment =>
            if q.pid == (payment.approve actorId now).pid
            then payment.approve actorId now else q) q).pid == paymentId)
              = (q.pid == paymentId) := by
        intro q
        by_cases hqq : (q.pid == (payment.approve actorId now).pid) = true
        · have hq2 : q.pid = payment.pid := by simpa [Payment.approve] using hqq
          simp only [if_pos hqq]
          simp [Payment.approve, hq2]
        · simp only [if_neg hqq]
      rw [find?_map_comm _ _ hpf, hfind2, Option.map_some']
      have hsel : (payment.pid == (payment.approve actorId now).pid) = true := by
        simp [Payment.approve]
      simp only [if_pos hsel]
    cases hfe : (user.enrolledCourses.find? fun e =>
        e.course == payment.course).isSome
    · refine ⟨((w.updatePayment (payment.approve actorId now)).setUserEnrollments
          payment.student (user.enrolledCourses ++
            [{ course := payment.course, paymentStatus := .completed
               paymentMethod := .offline }])).incEnrollmentCount payment.course,
        ?_, ?_⟩
      · simp only [approvePayment, hgr, Bool.not_true, Bool.false_eq_true,
          if_false, hfind, hcourse, hai, hm2, hp2,
          World.findUser_updatePayment, huser2, hfe]
      · have hco : (((w.updatePayment (payment.approve actorId now)).setUserEnrollments
            payment.student (user.enrolledCourses ++
              [{ course := payment.course, paymentStatus := .completed
                 paymentMethod := .offline }])).incEnrollmentCount
            payment.course).findCourse (payment.approve actorId now).course
              = some { course with enrollmentCount := course.enrollmentCount + 1 } := by
          have hcp : (course.cid == payment.course) = true := by
            have h2 := List.find?_some hcourse2
            exact h2
          have hpf : ∀ cc : CourseDoc,
              (((fun cc : CourseDoc =>
                if cc.cid == payment.course
                then { cc with enrollmentCount := cc.enrollmentCount + 1 }
                else cc) cc).cid == payment.course) = (cc.cid == payment.course) := by
            intro cc
            by_cases hcc : (cc.cid == payment.course) = true
            · simp only [if_pos hcc]
            · simp only [if_neg hcc]
          show (w.courses.map (fun cc =>
              if cc.cid == payment.course
              then { cc with enrollmentCount := cc.enrollmentCount + 1 }
              else cc)).find? (fun cc => cc.cid == payment.course)
                = some { course with enrollmentCount := course.enrollmentCount + 1 }
          rw [find?_map_comm _ _ hpf, hcourse2, Option.map_some']
          simp only [if_pos hcp]
        have hfp3 : (((w.updatePayment (payment.approve actorId now)).setUserEnrollments
            payment.student (user.enrolledCourses ++
              [{ course := payment.course, paymentStatus := .completed
                 paymentMethod := .offline }])).incEnrollmentCount
            payment.course).findPayment paymentId
              = some (payment.approve actorId now) :=
          hfp (user.enrolledCourses ++
            [{ course := payment.course, paymentStatus := .completed
               paymentMethod := .offline }])
        simp only [approvePayment, hgr, Bool.not_true, Bool.false_eq_true,
          if_false, hfp3, hco]
        simp [Payment.approve, hm, hai]
    · refine ⟨(w.updatePayment (payment.approve actorId now)).setUserEnrollments
          payment.student (setFirstEnrollmentCompleted payment.course
            user.enrolledCourses), ?_, ?_⟩
      · simp only [approvePayment, hgr, Bool.not_true, Bool.false_eq_true,
          if_false, if_true, hfind, hcourse, hai, hm2, hp2,
          World.findUser_updatePayment, huser2, hfe]
      · have hco : (((w.updatePayment (payment.approve actorId now)).setUserEnrollments
            payment.student (setFirstEnrollmentCompleted payment.course
              user.enrolledCourses))).findCourse (payment.approve actorId now).course
              = some course := by
          show w.courses.find?
              (fun cc => cc.cid == payment.course) = some course
          exact hcourse2
        simp only [approvePayment, hgr, Bool.not_true, Bool.false_eq_true,
          if_false, hfp, hco, hai]
        simp [Payment.approve, hm, hai]

/-- C4 witness: the replay theorem applied to the concrete pending online
payment (order 11) and the concrete pending offline payment 20. -/
theorem settlement_replay_idempotent_witness :
    verify verifiedWorld 1 11 13 true = (verifiedWorld, .error .paymentNotFound)
  ∧ verifiedWorld.enrollmentCountOf 2 = pendingOnlineWorld.enrollmentCountOf 2 + 1
  ∧ approvePayment approvedWorld 5 .admin 20 778
      = (approvedWorld, .error .notPending) := by
  obtain ⟨w1, h1, h2, h3⟩ := settlement_replay_idempotent.1 pendingOnlineWorld
    1 11 12 13 true pendingOnlinePayment
    { uid := 1, role := .student, enrolledCourses := [] }
    (by decide) (by decide) (by decide)
  have he : verify pendingOnlineWorld 1 11 12 true
      = (verifiedWorld, .ok { paymentId := 10, courseId := 2 }) := by decide
  rw [he] at h1
  have hw1 : verifiedWorld = w1 := congrArg Prod.fst h1
  rw [← hw1] at h2 h3
  obtain ⟨w2, hb1, hb2⟩ := settlement_replay_idempotent.2 offlineWorld
    5 .admin 20 777 778 offlinePayment
    { cid := 2, instructor := 5, price := 2999
      isPublished := true, enrollmentCount := 0 }
    (Or.inl rfl) (by decide) (by decide) (Or.inr rfl) (by decide)
    (by decide) (by decide)
  have hae : approvePayment offlineWorld 5 .admin 20 777
      = (approvedWorld, .ok (offlinePayment.approve 5 777)) := by decide
  rw [hae] at hb1
  have hw2 : approvedWorld = w2 := congrArg Prod.fst hb1
  rw [← hw2] at hb2
  exact ⟨h2, h3 (by decide), hb2⟩

end Coaching
